import Mathlib

/-!
Verification of the data-grid cell hook (`hooks.tsx`, `useDataGridCell`) and
the auth-identity fixture helper of the repository.  The definitions below are
a shallow embedding of the source: pure event handlers become Lean functions
on an explicit cell/coordinator state, DOM side effects (focus, blur,
preventDefault, event re-dispatch) become fields of the state or of a result
record.  The grid coordinator (`./context`), `./utils` and `./models` are not
part of the supplied sources; the few coordinator operations the handlers
call are modelled from the specification and marked as such.
-/

namespace DataGrid

/-- The `type` tag of `UseDataGridCellProps`: "text" | "number" | "select" | "boolean". -/
inductive CellType where
  | text
  | number
  | sel
  | boolean
deriving DecidableEq

/-- `CellCoords` from `types.ts`: a row index and a column index. -/
structure CellCoords where
  row : Nat
  col : Nat
deriving DecidableEq

/-- The slice of the grid coordinator's state that the cell hook reads and
writes: the current anchor, the active range's end, and the
selecting/editing flags. -/
structure GridState where
  anchor : Option CellCoords
  rangeEnd : Option CellCoords
  isSelecting : Bool
  isEditing : Bool
deriving DecidableEq

/-- Per-cell state as seen by the handlers of `useDataGridCell`: the shared
coordinator state, the local `showOverlay` flag (`useState(true)`), whether
`inputRef.current` and `containerRef.current` are non-null, which element
holds focus, and whether the input is an `HTMLInputElement` whose content
can be selected / has been selected. -/
structure CellState where
  grid : GridState
  showOverlay : Bool
  inputPresent : Bool
  containerPresent : Bool
  inputFocused : Bool
  containerFocused : Bool
  inputSupportsSelect : Bool
  inputContentSelected : Bool
deriving DecidableEq

/-- A mouse-down event as the handlers inspect it: `e.detail` (the click
repeat count) and `e.shiftKey`. -/
structure MouseEvt where
  detail : Nat
  shiftKey : Bool
deriving DecidableEq

/-- A keyboard event as `handleContainerKeyDown` inspects it: `e.key`,
`e.ctrlKey` and `e.metaKey`. -/
structure KeyEvt where
  key : String
  ctrlKey : Bool
  metaKey : Bool
deriving DecidableEq

/-- Result of a mouse-down handler: the new state plus whether
`preventDefault` and `stopPropagation` were called on the event. -/
structure MouseDownResult where
  state : CellState
  preventedDefault : Bool
  stoppedPropagation : Bool
deriving DecidableEq

/-- Result of `handleContainerKeyDown`: the new state plus whether an
equivalent keyboard event was re-dispatched to the inner input. -/
structure KeyDownResult where
  state : CellState
  forwarded : Bool
deriving DecidableEq

/-- Modelled from the spec: the coordinator's `setSingleRange(coords)` —
"set a new single-cell range at the clicked coordinates (anchor = end =
clicked cell)".  The coordinator (`./context`) is not among the supplied
sources. -/
def setSingleRange (coords : CellCoords) (g : GridState) : GridState :=
  { g with anchor := some coords, rangeEnd := some coords }

/-- Modelled from the spec: the coordinator's `setRangeEnd(coords)` —
"extend the active range's end to the clicked coordinates" without changing
the anchor.  The coordinator (`./context`) is not among the supplied
sources. -/
def setRangeEnd (coords : CellCoords) (g : GridState) : GridState :=
  { g with rangeEnd := some coords }

/-- The coordinator's `setIsSelecting` flag setter. -/
def setIsSelecting (b : Bool) (g : GridState) : GridState :=
  { g with isSelecting := b }

/-- The coordinator's `setIsEditing` flag setter. -/
def setIsEditing (b : Bool) (g : GridState) : GridState :=
  { g with isEditing := b }

/-- `handleInputBlur` from `useDataGridCell`: `setShowOverlay(true)` and
`setIsEditing(false)`. -/
def handleInputBlur (s : CellState) : CellState :=
  { s with showOverlay := true, grid := setIsEditing false s.grid }

/-- `handleInputFocus` from `useDataGridCell`: `setShowOverlay(false)` and
`setIsEditing(true)`. -/
def handleInputFocus (s : CellState) : CellState :=
  { s with showOverlay := false, grid := setIsEditing true s.grid }

/-- `inputRef.current?.focus()`: when the input element exists, focus moves
to it and its `focus` event fires `handleInputFocus` synchronously. -/
def focusInput (s : CellState) : CellState :=
  if s.inputPresent = true then
    handleInputFocus { s with inputFocused := true, containerFocused := false }
  else s

/-- `containerRef.current.focus()`: focus moves to the container; if the
inner input was focused, its `blur` event fires `handleInputBlur`
synchronously. -/
def focusContainer (s : CellState) : CellState :=
  let s1 := if s.inputFocused = true then handleInputBlur s else s
  { s1 with containerFocused := true, inputFocused := false }

/-- `coords.col === anchor?.col` from `handleOverlayMouseDown`: when there
is no anchor the optional-chaining comparison is false. -/
def anchorColMatches (anchor : Option CellCoords) (coords : CellCoords) : Bool :=
  match anchor with
  | some a => coords.col = a.col
  | none => false

/-- `handleOverlayMouseDown` from `useDataGridCell`.  The source calls
`preventDefault`/`stopPropagation` unconditionally, then: on `e.detail === 2`
with an input present it hides the overlay, focuses the input and returns;
on a shift-click whose column equals the anchor's column it calls
`setRangeEnd` and returns; otherwise, when the container exists, it calls
`setSingleRange`, `setIsSelecting(true)` and focuses the container. -/
def handleOverlayMouseDown (coords : CellCoords) (e : MouseEvt) (s : CellState) :
    MouseDownResult :=
  let st :=
    if e.detail = 2 ∧ s.inputPresent = true then
      focusInput { s with showOverlay := false }
    else if e.shiftKey = true ∧ anchorColMatches s.grid.anchor coords = true then
      { s with grid := setRangeEnd coords s.grid }
    else if s.containerPresent = true then
      focusContainer { s with grid := setIsSelecting true (setSingleRange coords s.grid) }
    else s
  ⟨st, true, true⟩

/-- `handleBooleanInnerMouseDown` from `useDataGridCell`.  On `e.detail === 2`
it focuses the input (optional chaining) and returns; on any shift-click it
calls `setRangeEnd` and returns — there is no anchor-column check here;
otherwise, when the container exists, it behaves like a plain click. -/
def handleBooleanInnerMouseDown (coords : CellCoords) (e : MouseEvt) (s : CellState) :
    MouseDownResult :=
  let st :=
    if e.detail = 2 then
      focusInput s
    else if e.shiftKey = true then
      { s with grid := setRangeEnd coords s.grid }
    else if s.containerPresent = true then
      focusContainer { s with grid := setIsSelecting true (setSingleRange coords s.grid) }
    else s
  ⟨st, true, true⟩

/-- A JavaScript line terminator, which `.` in a non-dotall regex does not
match. -/
def isLineTerminator (c : Char) : Bool :=
  c = '\n' || c = '\r' || c.val = 0x2028 || c.val = 0x2029

/-- `textCharacterRegex = /^.$/u`: exactly one character that is not a line
terminator. -/
def textCharacterRegex (key : String) : Bool :=
  match key.data with
  | [c] => !(isLineTerminator c)
  | _ => false

/-- `numberCharacterRegex = /^[0-9]$/u`: exactly one ASCII digit. -/
def numberCharacterRegex (key : String) : Bool :=
  match key.data with
  | [c] => '0' ≤ c && c ≤ '9'
  | _ => false

/-- `validateKeyStroke` from `useDataGridCell`: digits for "number" cells,
any single character for "text" cells, and never for other cell types. -/
def validateKeyStroke (type : CellType) (key : String) : Bool :=
  if type = CellType.number then
    numberCharacterRegex key
  else if type = CellType.text then
    textCharacterRegex key
  else
    false

/-- `e.key.toLowerCase()`: character-wise lowering (ASCII letters are the
only characters whose lowercase form the handler compares against). -/
def toLowerCase (k : String) : String :=
  ⟨k.data.map Char.toLower⟩

/-- `handleContainerKeyDown` from `useDataGridCell`: return early unless an
input exists, the key validates for the cell type and the overlay is
showing; return early on ctrl/meta + z, c or v (case-insensitive);
otherwise focus the input, hide the overlay, select the input's content
when it is an `HTMLInputElement`, and re-dispatch the keyboard event to the
input. -/
def handleContainerKeyDown (type : CellType) (e : KeyEvt) (s : CellState) :
    KeyDownResult :=
  if s.inputPresent = false ∨ validateKeyStroke type e.key = false ∨ s.showOverlay = false then
    ⟨s, false⟩
  else if toLowerCase e.key = "z" ∧ (e.ctrlKey = true ∨ e.metaKey = true) then
    ⟨s, false⟩
  else if toLowerCase e.key = "c" ∧ (e.ctrlKey = true ∨ e.metaKey = true) then
    ⟨s, false⟩
  else if toLowerCase e.key = "v" ∧ (e.ctrlKey = true ∨ e.metaKey = true) then
    ⟨s, false⟩
  else
    let s1 := { focusInput s with showOverlay := false }
    let s2 :=
      if s1.inputSupportsSelect = true then { s1 with inputContentSelected := true } else s1
    ⟨s2, true⟩

/-- `fieldWithoutOverlay` from `useDataGridCell`:
`type === "boolean" || type === "select"`. -/
def fieldWithoutOverlay (type : CellType) : Bool :=
  type = CellType.boolean || type = CellType.sel

/-- Modelled from the spec: `isCellMatch` from `./utils` (not among the
supplied sources) — "two coordinate pairs are equal iff both components
match". -/
def isCellMatch (a b : CellCoords) : Bool :=
  a.row = b.row && a.col = b.col

/-- The container part of `renderProps` that is computed locally:
`isAnchor` and the `showOverlay` flag handed to the view, which is forced
to `false` for boolean/select cells. -/
structure ContainerRenderFlags where
  isAnchor : Bool
  showOverlay : Bool
deriving DecidableEq

/-- The locally computed render flags of `renderProps.container`. -/
def renderFlags (type : CellType) (coords : CellCoords) (s : CellState) :
    ContainerRenderFlags :=
  { isAnchor :=
      match s.grid.anchor with
      | some a => isCellMatch coords a
      | none => false
    showOverlay := if fieldWithoutOverlay type then false else s.showOverlay }

/-- `useDataGridContext` from `hooks.tsx`: reading the context either yields
the context value or, when no provider encloses the caller, throws a
descriptive `Error`. -/
def useDataGridContext {Ctx : Type} (context : Option Ctx) : Except String Ctx :=
  match context with
  | none =>
      Except.error "useDataGridContext must be used within a DataGridContextProvider"
  | some c => Except.ok c

end DataGrid

namespace AuthFixture

/-- One `{ entity_id, provider }` pair of a seeded identity record. -/
structure ProviderIdentity where
  entity_id : String
  provider : String
deriving DecidableEq

/-- The `app_metadata` object of a seeded identity record. -/
structure AppMetadata where
  user_id : String
deriving DecidableEq

/-- One element of the fixture helper's `userData` argument. -/
structure AuthSeedRecord where
  id : Option String
  provider_identities : List ProviderIdentity
  app_metadata : Option AppMetadata
deriving DecidableEq

/-- The default `userData` list of `createAuthIdentities`. -/
def defaultUserData : List AuthSeedRecord :=
  [ { id := some "test-id"
      provider_identities := [{ entity_id := "test-id", provider := "manual" }]
      app_metadata := some { user_id := "user-1" } }
  , { id := some "test-id-1"
      provider_identities := [{ entity_id := "test-id-1", provider := "manual" }]
      app_metadata := none }
  , { id := none
      provider_identities := [{ entity_id := "test-id-2", provider := "store" }]
      app_metadata := none } ]

/-- `createAuthIdentities` from the fixture file: call the service's
`createAuthIdentities` on the given records (or the default list when the
argument is omitted) and return its outcome — the created records on
success, the unchanged rejection on failure. -/
def createAuthIdentities {α ε : Type}
    (service : List AuthSeedRecord → Except ε (List α))
    (userData : Option (List AuthSeedRecord)) : Except ε (List α) :=
  service (userData.getD defaultUserData)

end AuthFixture

namespace DataGrid

/-- A representative freshly mounted cell state: overlay shown
(`useState(true)`), input and container refs attached, nothing focused,
input content selectable. -/
def baseState : CellState :=
  { grid := { anchor := none, rangeEnd := none, isSelecting := false, isEditing := false }
    showOverlay := true
    inputPresent := true
    containerPresent := true
    inputFocused := false
    containerFocused := false
    inputSupportsSelect := true
    inputContentSelected := false }

/-- C5: for every plain (non-shift, non-double) mouse-down click on a cell,
both the overlay handler and the boolean inner handler leave a single-cell
range whose anchor and end equal the clicked coordinates, set `isSelecting`
to true, and move focus to the cell's container. -/
theorem plainClick_singleRange (coords : CellCoords) (e : MouseEvt) (s : CellState)
    (hshift : e.shiftKey = false) (hdet : e.detail ≠ 2)
    (hcont : s.containerPresent = true) :
    ((handleOverlayMouseDown coords e s).state.grid.anchor = some coords ∧
     (handleOverlayMouseDown coords e s).state.grid.rangeEnd = some coords ∧
     (handleOverlayMouseDown coords e s).state.grid.isSelecting = true ∧
     (handleOverlayMouseDown coords e s).state.containerFocused = true) ∧
    ((handleBooleanInnerMouseDown coords e s).state.grid.anchor = some coords ∧
     (handleBooleanInnerMouseDown coords e s).state.grid.rangeEnd = some coords ∧
     (handleBooleanInnerMouseDown coords e s).state.grid.isSelecting = true ∧
     (handleBooleanInnerMouseDown coords e s).state.containerFocused = true) := by
  rcases Bool.eq_false_or_eq_true s.inputFocused with hf | hf <;>
    simp [handleOverlayMouseDown, handleBooleanInnerMouseDown, focusContainer,
      handleInputBlur, setIsEditing, setIsSelecting, setSingleRange,
      hshift, hdet, hcont, hf]

/-- C5 witness: a plain first click at (1, 2) on a fresh cell. -/
theorem plainClick_singleRange_witness :
    ((handleOverlayMouseDown ⟨1, 2⟩ ⟨1, false⟩ baseState).state.grid.anchor = some ⟨1, 2⟩ ∧
     (handleOverlayMouseDown ⟨1, 2⟩ ⟨1, false⟩ baseState).state.grid.rangeEnd = some ⟨1, 2⟩ ∧
     (handleOverlayMouseDown ⟨1, 2⟩ ⟨1, false⟩ baseState).state.grid.isSelecting = true ∧
     (handleOverlayMouseDown ⟨1, 2⟩ ⟨1, false⟩ baseState).state.containerFocused = true) ∧
    ((handleBooleanInnerMouseDown ⟨1, 2⟩ ⟨1, false⟩ baseState).state.grid.anchor = some ⟨1, 2⟩ ∧
     (handleBooleanInnerMouseDown ⟨1, 2⟩ ⟨1, false⟩ baseState).state.grid.rangeEnd = some ⟨1, 2⟩ ∧
     (handleBooleanInnerMouseDown ⟨1, 2⟩ ⟨1, false⟩ baseState).state.grid.isSelecting = true ∧
     (handleBooleanInnerMouseDown ⟨1, 2⟩ ⟨1, false⟩ baseState).state.containerFocused = true) :=
  plainClick_singleRange ⟨1, 2⟩ ⟨1, false⟩ baseState rfl (by decide) rfl

/-- C3: for every double-click (`e.detail = 2`) mouse-down on a cell whose
input element is present, both handlers cancel the default action and
bubbling, leave the anchor, the range end and the `isSelecting` flag
unchanged, and end in Direct-edit: overlay hidden and input focused. -/
theorem doubleClick_directEdit (coords : CellCoords) (e : MouseEvt) (s : CellState)
    (hdet : e.detail = 2) (hin : s.inputPresent = true) :
    ((handleOverlayMouseDown coords e s).preventedDefault = true ∧
     (handleOverlayMouseDown coords e s).stoppedPropagation = true ∧
     (handleOverlayMouseDown coords e s).state.grid.anchor = s.grid.anchor ∧
     (handleOverlayMouseDown coords e s).state.grid.rangeEnd = s.grid.rangeEnd ∧
     (handleOverlayMouseDown coords e s).state.grid.isSelecting = s.grid.isSelecting ∧
     (handleOverlayMouseDown coords e s).state.showOverlay = false ∧
     (handleOverlayMouseDown coords e s).state.inputFocused = true) ∧
    ((handleBooleanInnerMouseDown coords e s).preventedDefault = true ∧
     (handleBooleanInnerMouseDown coords e s).stoppedPropagation = true ∧
     (handleBooleanInnerMouseDown coords e s).state.grid.anchor = s.grid.anchor ∧
     (handleBooleanInnerMouseDown coords e s).state.grid.rangeEnd = s.grid.rangeEnd ∧
     (handleBooleanInnerMouseDown coords e s).state.grid.isSelecting = s.grid.isSelecting ∧
     (handleBooleanInnerMouseDown coords e s).state.showOverlay = false ∧
     (handleBooleanInnerMouseDown coords e s).state.inputFocused = true) := by
  simp [handleOverlayMouseDown, handleBooleanInnerMouseDown, focusInput,
    handleInputFocus, setIsEditing, hdet, hin]

/-- C3 witness: a double-click at (0, 1) on a fresh cell with an input. -/
theorem doubleClick_directEdit_witness :
    ((handleOverlayMouseDown ⟨0, 1⟩ ⟨2, false⟩ baseState).preventedDefault = true ∧
     (handleOverlayMouseDown ⟨0, 1⟩ ⟨2, false⟩ baseState).stoppedPropagation = true ∧
     (handleOverlayMouseDown ⟨0, 1⟩ ⟨2, false⟩ baseState).state.grid.anchor = baseState.grid.anchor ∧
     (handleOverlayMouseDown ⟨0, 1⟩ ⟨2, false⟩ baseState).state.grid.rangeEnd = baseState.grid.rangeEnd ∧
     (handleOverlayMouseDown ⟨0, 1⟩ ⟨2, false⟩ baseState).state.grid.isSelecting = baseState.grid.isSelecting ∧
     (handleOverlayMouseDown ⟨0, 1⟩ ⟨2, false⟩ baseState).state.showOverlay = false ∧
     (handleOverlayMouseDown ⟨0, 1⟩ ⟨2, false⟩ baseState).state.inputFocused = true) ∧
    ((handleBooleanInnerMouseDown ⟨0, 1⟩ ⟨2, false⟩ baseState).preventedDefault = true ∧
     (handleBooleanInnerMouseDown ⟨0, 1⟩ ⟨2, false⟩ baseState).stoppedPropagation = true ∧
     (handleBooleanInnerMouseDown ⟨0, 1⟩ ⟨2, false⟩ baseState).state.grid.anchor = baseState.grid.anchor ∧
     (handleBooleanInnerMouseDown ⟨0, 1⟩ ⟨2, false⟩ baseState).state.grid.rangeEnd = baseState.grid.rangeEnd ∧
     (handleBooleanInnerMouseDown ⟨0, 1⟩ ⟨2, false⟩ baseState).state.grid.isSelecting = baseState.grid.isSelecting ∧
     (handleBooleanInnerMouseDown ⟨0, 1⟩ ⟨2, false⟩ baseState).state.showOverlay = false ∧
     (handleBooleanInnerMouseDown ⟨0, 1⟩ ⟨2, false⟩ baseState).state.inputFocused = true) :=
  doubleClick_directEdit ⟨0, 1⟩ ⟨2, false⟩ baseState rfl rfl

/-- C6: for every cell state, the input's blur handler shows the overlay
and clears `isEditing`, and the input's focus handler hides the overlay
and sets `isEditing`. -/
theorem blur_focus_transitions (s : CellState) :
    (handleInputBlur s).showOverlay = true ∧
    (handleInputBlur s).grid.isEditing = false ∧
    (handleInputFocus s).showOverlay = false ∧
    (handleInputFocus s).grid.isEditing = true := by
  simp [handleInputBlur, handleInputFocus, setIsEditing]

/-- C7: for boolean- and select-typed cells, the `showOverlay` render flag
handed to the view is false in every state. -/
theorem booleanSelect_noOverlay (type : CellType) (coords : CellCoords) (s : CellState)
    (h : type = CellType.boolean ∨ type = CellType.sel) :
    (renderFlags type coords s).showOverlay = false := by
  rcases h with h | h <;> subst h <;> simp [renderFlags, fieldWithoutOverlay]

/-- C7 witness: a boolean cell in the fresh state (whose local
`showOverlay` is true) still renders no overlay. -/
theorem booleanSelect_noOverlay_witness :
    (renderFlags CellType.boolean ⟨0, 0⟩ baseState).showOverlay = false :=
  booleanSelect_noOverlay CellType.boolean ⟨0, 0⟩ baseState (Or.inl rfl)

/-- A cell state with an existing selection: the anchor and range end sit
at (0, 0), nothing is being selected or edited, input and container are
mounted, the overlay is showing. -/
def anchoredState : CellState :=
  { baseState with
    grid := { baseState.grid with anchor := some ⟨0, 0⟩, rangeEnd := some ⟨0, 0⟩ } }

/-- C1 counterexample: a shift-click (detail 1) at (2, 3) on a boolean cell
whose anchor is at column 0 does not behave like a plain click — the code
extends the range end and leaves the anchor and `isSelecting` untouched,
because `handleBooleanInnerMouseDown` never checks the anchor's column. -/
theorem shiftClick_boolean_counterexample :
    (handleBooleanInnerMouseDown ⟨2, 3⟩ ⟨1, true⟩ anchoredState).state.grid.rangeEnd =
      some ⟨2, 3⟩ ∧
    (handleBooleanInnerMouseDown ⟨2, 3⟩ ⟨1, true⟩ anchoredState).state.grid.anchor =
      some ⟨0, 0⟩ ∧
    ¬((handleBooleanInnerMouseDown ⟨2, 3⟩ ⟨1, true⟩ anchoredState).state.grid.anchor =
        some ⟨2, 3⟩ ∧
      (handleBooleanInnerMouseDown ⟨2, 3⟩ ⟨1, true⟩ anchoredState).state.grid.isSelecting =
        true) := by
  decide

/-- C1 (amended): on a non-double shift-click, the overlay handler extends
the range end (anchor unchanged) when the clicked column equals the
anchor's column and otherwise behaves exactly like the same click without
shift; the boolean inner handler always extends the range end (anchor
unchanged), with no column check. -/
theorem shiftClick_columnRule (coords : CellCoords) (e : MouseEvt) (s : CellState)
    (hshift : e.shiftKey = true) (hdet : e.detail ≠ 2) :
    (handleOverlayMouseDown coords e s =
       if anchorColMatches s.grid.anchor coords = true then
         ⟨{ s with grid := { s.grid with rangeEnd := some coords } }, true, true⟩
       else
         handleOverlayMouseDown coords { detail := e.detail, shiftKey := false } s) ∧
    handleBooleanInnerMouseDown coords e s =
      ⟨{ s with grid := { s.grid with rangeEnd := some coords } }, true, true⟩ := by
  constructor
  · rcases Bool.eq_false_or_eq_true (anchorColMatches s.grid.anchor coords) with hm | hm <;>
      simp [handleOverlayMouseDown, setRangeEnd, hshift, hdet, hm]
  · simp [handleBooleanInnerMouseDown, setRangeEnd, hshift, hdet]

/-- C1 witness: a shift-click at (1, 0), on the anchor's column 0. -/
theorem shiftClick_columnRule_witness :
    (handleOverlayMouseDown ⟨1, 0⟩ ⟨1, true⟩ anchoredState =
       if anchorColMatches anchoredState.grid.anchor ⟨1, 0⟩ = true then
         ⟨{ anchoredState with
            grid := { anchoredState.grid with rangeEnd := some ⟨1, 0⟩ } }, true, true⟩
       else
         handleOverlayMouseDown ⟨1, 0⟩ { detail := 1, shiftKey := false } anchoredState) ∧
    handleBooleanInnerMouseDown ⟨1, 0⟩ ⟨1, true⟩ anchoredState =
      ⟨{ anchoredState with
         grid := { anchoredState.grid with rangeEnd := some ⟨1, 0⟩ } }, true, true⟩ :=
  shiftClick_columnRule ⟨1, 0⟩ ⟨1, true⟩ anchoredState rfl (by decide)

/-- C2 counterexample: on a text cell with an input and the overlay
showing, ctrl+z satisfies all three conditions of the claim (input
present, single matching character, overlay showing) yet is not forwarded,
because the handler exempts ctrl/meta + z, c, v. -/
theorem keydownForward_counterexample :
    baseState.inputPresent = true ∧
    validateKeyStroke CellType.text "z" = true ∧
    baseState.showOverlay = true ∧
    (handleContainerKeyDown CellType.text ⟨"z", true, false⟩ baseState).forwarded = false := by
  decide

/-- C2 (amended): a keydown on the cell's outer container is forwarded to
the inner input iff an input exists, the key matches the cell type's
character class, the overlay is showing, and the key is not a ctrl/meta
z, c or v (case-insensitive). -/
theorem keydownForward_iff (type : CellType) (e : KeyEvt) (s : CellState) :
    (handleContainerKeyDown type e s).forwarded = true ↔
      (s.inputPresent = true ∧ validateKeyStroke type e.key = true ∧
       s.showOverlay = true ∧
       ¬((toLowerCase e.key = "z" ∨ toLowerCase e.key = "c" ∨ toLowerCase e.key = "v") ∧
         (e.ctrlKey = true ∨ e.metaKey = true))) := by
  unfold handleContainerKeyDown
  by_cases h1 : s.inputPresent = false ∨ validateKeyStroke type e.key = false ∨
      s.showOverlay = false
  · rw [if_pos h1]
    constructor
    · intro h; simp at h
    · rintro ⟨ha, hb, hc, -⟩
      rcases h1 with h | h | h <;> simp_all
  · rw [if_neg h1]
    have ha : s.inputPresent = true := by
      cases hx : s.inputPresent
      · exact absurd (Or.inl hx) h1
      · rfl
    have hb : validateKeyStroke type e.key = true := by
      cases hx : validateKeyStroke type e.key
      · exact absurd (Or.inr (Or.inl hx)) h1
      · rfl
    have hc : s.showOverlay = true := by
      cases hx : s.showOverlay
      · exact absurd (Or.inr (Or.inr hx)) h1
      · rfl
    by_cases hz : toLowerCase e.key = "z" ∧ (e.ctrlKey = true ∨ e.metaKey = true)
    · rw [if_pos hz]
      constructor
      · intro h; simp at h
      · rintro ⟨-, -, -, hno⟩
        exact absurd ⟨Or.inl hz.1, hz.2⟩ hno
    · rw [if_neg hz]
      by_cases hc2 : toLowerCase e.key = "c" ∧ (e.ctrlKey = true ∨ e.metaKey = true)
      · rw [if_pos hc2]
        constructor
        · intro h; simp at h
        · rintro ⟨-, -, -, hno⟩
          exact absurd ⟨Or.inr (Or.inl hc2.1), hc2.2⟩ hno
      · rw [if_neg hc2]
        by_cases hv : toLowerCase e.key = "v" ∧ (e.ctrlKey = true ∨ e.metaKey = true)
        · rw [if_pos hv]
          constructor
          · intro h; simp at h
          · rintro ⟨-, -, -, hno⟩
            exact absurd ⟨Or.inr (Or.inr hv.1), hv.2⟩ hno
        · rw [if_neg hv]
          constructor
          · intro _
            refine ⟨ha, hb, hc, ?_⟩
            rintro ⟨hk | hk | hk, hm⟩
            · exact hz ⟨hk, hm⟩
            · exact hc2 ⟨hk, hm⟩
            · exact hv ⟨hk, hm⟩
          · intro _
            rfl

/-- C4: for every keydown whose key lowers to z, c or v with ctrl or meta
held, the container keydown handler leaves the state untouched and
forwards nothing: the overlay is not hidden, the input is not focused, no
event is re-dispatched. -/
theorem modifierExempt_noForward (type : CellType) (e : KeyEvt) (s : CellState)
    (hk : toLowerCase e.key = "z" ∨ toLowerCase e.key = "c" ∨ toLowerCase e.key = "v")
    (hm : e.ctrlKey = true ∨ e.metaKey = true) :
    handleContainerKeyDown type e s = ⟨s, false⟩ := by
  unfold handleContainerKeyDown
  by_cases h1 : s.inputPresent = false ∨ validateKeyStroke type e.key = false ∨
      s.showOverlay = false
  · rw [if_pos h1]
  · rw [if_neg h1]
    rcases hk with hk | hk | hk
    · rw [if_pos ⟨hk, hm⟩]
    · have hz : ¬(toLowerCase e.key = "z" ∧ (e.ctrlKey = true ∨ e.metaKey = true)) := by
        rintro ⟨h, -⟩; rw [hk] at h; exact absurd h (by decide)
      rw [if_neg hz, if_pos ⟨hk, hm⟩]
    · have hz : ¬(toLowerCase e.key = "z" ∧ (e.ctrlKey = true ∨ e.metaKey = true)) := by
        rintro ⟨h, -⟩; rw [hk] at h; exact absurd h (by decide)
      have hcn : ¬(toLowerCase e.key = "c" ∧ (e.ctrlKey = true ∨ e.metaKey = true)) := by
        rintro ⟨h, -⟩; rw [hk] at h; exact absurd h (by decide)
      rw [if_neg hz, if_neg hcn, if_pos ⟨hk, hm⟩]

/-- C4 witness: ctrl+z on a text cell in the fresh state. -/
theorem modifierExempt_noForward_witness :
    handleContainerKeyDown CellType.text ⟨"z", true, false⟩ baseState =
      ⟨baseState, false⟩ :=
  modifierExempt_noForward CellType.text ⟨"z", true, false⟩ baseState
    (Or.inl rfl) (Or.inl rfl)

/-- C8: a double-click on the overlay of a cell whose input element is
absent does not enter Direct-edit; it falls through to the shift/plain
selection logic and acts exactly like the same click with repeat count 1. -/
theorem doubleClickNoInput_fallsThrough (coords : CellCoords) (e : MouseEvt) (s : CellState)
    (hdet : e.detail = 2) (hin : s.inputPresent = false) (hif : s.inputFocused = false) :
    handleOverlayMouseDown coords e s =
      handleOverlayMouseDown coords { detail := 1, shiftKey := e.shiftKey } s ∧
    (handleOverlayMouseDown coords e s).state.inputFocused = false ∧
    (handleOverlayMouseDown coords e s).state.showOverlay = s.showOverlay := by
  refine ⟨?_, ?_, ?_⟩ <;>
    rcases Bool.eq_false_or_eq_true e.shiftKey with hs | hs <;>
    rcases Bool.eq_false_or_eq_true (anchorColMatches s.grid.anchor coords) with hma | hma <;>
    rcases Bool.eq_false_or_eq_true s.containerPresent with hcp | hcp <;>
      simp [handleOverlayMouseDown, focusContainer, handleInputBlur, setIsEditing,
        setIsSelecting, setSingleRange, hdet, hin, hif, hs, hma, hcp]

/-- C8 witness: a shift double-click at (0, 5) on a cell with no input. -/
theorem doubleClickNoInput_fallsThrough_witness :
    handleOverlayMouseDown ⟨0, 5⟩ ⟨2, true⟩ { baseState with inputPresent := false } =
      handleOverlayMouseDown ⟨0, 5⟩ { detail := 1, shiftKey := true }
        { baseState with inputPresent := false } ∧
    (handleOverlayMouseDown ⟨0, 5⟩ ⟨2, true⟩
        { baseState with inputPresent := false }).state.inputFocused = false ∧
    (handleOverlayMouseDown ⟨0, 5⟩ ⟨2, true⟩
        { baseState with inputPresent := false }).state.showOverlay =
      ({ baseState with inputPresent := false } : CellState).showOverlay :=
  doubleClickNoInput_fallsThrough ⟨0, 5⟩ ⟨2, true⟩
    { baseState with inputPresent := false } rfl rfl rfl

/-- C9: invoking the cell hook's context accessor with no enclosing
provider yields the descriptive fatal error immediately, and with a
provider it yields the context value itself. -/
theorem contextMisuse_fatalError {Ctx : Type} :
    useDataGridContext (none : Option Ctx) =
      Except.error "useDataGridContext must be used within a DataGridContextProvider" ∧
    ∀ c : Ctx, useDataGridContext (some c) = Except.ok c :=
  ⟨rfl, fun _ => rfl⟩

end DataGrid

namespace AuthFixture

/-- C10: the fixture helper returns exactly the outcome of the service's
`createAuthIdentities` call on its argument (or on the default list when
the argument is omitted): created records unchanged and in order on
success, and the unchanged rejection on failure. -/
theorem fixture_returns_service_outcome {α ε : Type}
    (service : List AuthSeedRecord → Except ε (List α)) :
    (∀ (userData : Option (List AuthSeedRecord)) (records : List α),
       service (userData.getD defaultUserData) = Except.ok records →
       createAuthIdentities service userData = Except.ok records) ∧
    (∀ (userData : Option (List AuthSeedRecord)) (err : ε),
       service (userData.getD defaultUserData) = Except.error err →
       createAuthIdentities service userData = Except.error err) ∧
    (∀ l : List AuthSeedRecord, createAuthIdentities service (some l) = service l) ∧
    createAuthIdentities service none = service defaultUserData :=
  ⟨fun _ _ h => h, fun _ _ h => h, fun _ => rfl, rfl⟩

/-- C10 witness: with an identity-like service that succeeds with its
input, the helper called without an argument returns the default list. -/
theorem fixture_returns_service_outcome_witness :
    createAuthIdentities (fun l => (Except.ok l : Except String (List AuthSeedRecord))) none =
      Except.ok defaultUserData :=
  (fixture_returns_service_outcome
    (fun l => (Except.ok l : Except String (List AuthSeedRecord)))).1 none defaultUserData rfl

end AuthFixture
